import Mathlib

/-!
Verification of the antioxidant-activity QSAR prediction script (Main.py).

The script is a single-pass orchestration pipeline: input resolution
(single SMILES string vs. batch spreadsheet), molecular-descriptor
calculation, preprocessing, three regression models, consensus/uncertainty
aggregation, applicability-domain classification, and spreadsheet export.

The embedding models a pandas DataFrame as an ordered association list of
named columns.  External collaborators (RDKit parsing and molecular weight,
the Mordred descriptor engine, the pickled preprocessing pipeline, the three
regressors and the applicability-domain classifier, numpy floating-point
primitives) are abstract function parameters, as the specification treats
them: input vector to output scalar/label.  Numeric values are modelled by
rationals; the floating primitives `10 ** (-c)` (unit conversion), `sqrt`
(inside `np.std`), the 3-decimal rounding of `round(df, 3)` and Python
`str` formatting are abstract functions carried in the `Libs` bundle.
-/

namespace Antioxidant

/-- One cell of a DataFrame: a string, a rational number, a missing value
(`NaN`, produced when a Mordred descriptor errors), or an integer class
label (the applicability-domain output). -/
inductive Cell where
  | str (v : String)
  | num (v : ℚ)
  | nan
  | lab (v : ℕ)
deriving DecidableEq

/-- A DataFrame column: a list of cells, one per row. -/
abbrev Col := List Cell

/-- A DataFrame: ordered list of named columns (pandas column order). -/
abbrev Frame := List (String × Col)

/-- Column lookup, first match (pandas `df[name]`). -/
def colOf : Frame → String → Option Col
  | [], _ => none
  | (m, c) :: t, n => if m = n then some c else colOf t n

/-- Column assignment (pandas `df[name] = col`): replace the column in place
if the name exists, otherwise append it on the right. -/
def setCol : Frame → String → Col → Frame
  | [], n, c => [(n, c)]
  | (m, d) :: t, n, c => if m = n then (m, c) :: t else (m, d) :: setCol t n c

/-- Column projection (pandas `df.loc[:, names]`). -/
def selectCols (f : Frame) (names : List String) : Frame :=
  names.map (fun n => (n, (colOf f n).getD []))

/-- String content of a cell (used to read the SMILES column). -/
def getStr : Cell → String
  | .str v => v
  | _ => ""

/-- Numeric content of a cell, defaulting missing/non-numeric to 0. -/
def cellQ : Cell → ℚ
  | .num v => v
  | _ => 0

/-- Numeric content of a cell, `none` for `NaN`/non-numeric cells. -/
def cellQ? : Cell → Option ℚ
  | .num v => some v
  | _ => none

/-- A list of rationals as a numeric column. -/
def numCol (l : List ℚ) : Col := l.map Cell.num

/-- The SMILES column of a frame, as strings. -/
def smilesOf (f : Frame) : List String := ((colOf f "SMILES").getD []).map getStr

/-- Row count of a frame, read off the SMILES column (every frame in the
pipeline carries one, and well-formed frames are rectangular). -/
def rowCount (f : Frame) : ℕ := (smilesOf f).length

/-- The numeric values of a named column (lengths preserved; non-numeric
cells read as 0, which never happens on the columns we extract). -/
def qColD (f : Frame) (n : String) : List ℚ := ((colOf f n).getD []).map cellQ

/-- A rectangular frame that has a SMILES column. -/
def wellFormed (f : Frame) : Bool :=
  (colOf f "SMILES").isSome && f.all (fun nc => nc.2.length == rowCount f)

/-- External library functions consumed by the script, over an abstract
molecule type `M`: RDKit `MolFromSmiles` (returns `none` for an unparsable
string — it does not raise) and `MolWt`; the Mordred descriptor names and
per-molecule descriptor values (`none` models an `error.Error`/`Missing`
result, replaced by `NaN` in `mordred_calculator`); `pd.read_excel`; and
the numpy/Python floating-point primitives: `tenPowNeg c` models
`10 ** (-c)`, `sqrtFn` the square root inside `np.std`, `roundFn` the
3-decimal rounding of `round(df, 3)`, `fmt` Python `str` of a float. -/
structure Libs (M : Type) where
  molFromSmiles : String → Option M
  molWt : M → ℚ
  descNames : List String
  desc : M → String → Option ℚ
  readExcel : String → Frame
  tenPowNeg : ℚ → ℚ
  sqrtFn : ℚ → ℚ
  roundFn : ℚ → ℚ
  fmt : ℚ → String

/-- The five pickled artifacts: per-model declared feature subsets
(`feature_names_in_`), the three per-row regression functions, the
pipeline's input feature names and row-wise transform (the consumed
contract of §4.4: same row count in and out), and the
applicability-domain classifier. -/
structure Models where
  feat1 : List String
  feat2 : List String
  feat3 : List String
  predict1 : List ℚ → ℚ
  predict2 : List ℚ → ℚ
  predict3 : List ℚ → ℚ
  pipeFeatures : List String
  transformRow : List (Option ℚ) → List ℚ
  adPredict : List ℚ → ℕ

variable {M : Type}

/-- `mols = [Chem.MolFromSmiles(smi) for smi in dataset['SMILES']]`. -/
def mols (L : Libs M) (f : Frame) : List (Option M) :=
  (smilesOf f).map L.molFromSmiles

/-- One Mordred descriptor cell: errors/missing become `NaN` (the
`applymap` on line 57 of Main.py). A `none` molecule never reaches here:
Mordred raises on it, modelled in `mordred_calculator`. -/
def descCell (L : Libs M) : Option M → String → Cell
  | some m, dn =>
    match L.desc m dn with
    | some v => .num v
    | none => .nan
  | none, _ => .nan

/-- The Mordred descriptor block: one column per descriptor name, one row
per molecule (`calc.pandas(mols)`). -/
def descCols (L : Libs M) (f : Frame) : Frame :=
  L.descNames.map (fun dn => (dn, (mols L f).map (fun mo => descCell L mo dn)))

/-- `pd.concat([dataset, df], axis=1)`: original columns, then descriptors. -/
def dataFrame (L : Libs M) (f : Frame) : Frame := f ++ descCols L f

/-- Whether every SMILES in the frame parses; when one does not, the
descriptor/molecular-weight steps raise an unhandled exception. -/
def validInput (L : Libs M) (f : Frame) : Bool :=
  (mols L f).all Option.isSome

/-- Row `i` of frame `f` restricted to columns `names`, as optional
numeric values (`none` = `NaN`). -/
def rowOf (f : Frame) (names : List String) (i : ℕ) : List (Option ℚ) :=
  names.map (fun n => (((colOf f n).getD [])[i]?).bind cellQ?)

/-- All rows of `f` restricted to columns `names`. -/
def rowsOf (f : Frame) (names : List String) : List (List (Option ℚ)) :=
  (List.range (rowCount f)).map (rowOf f names)

/-- `data_input = pd.DataFrame(pipeline.transform(data.loc[:, pipeline.feature_names_in_]), columns=pipeline.feature_names_in_)`
(Main.py lines 210-211): the descriptor table restricted to the pipeline's
declared features, transformed row by row; the resulting columns are again
named by `pipeFeatures`. -/
def dataInput (L : Libs M) (Md : Models) (f : Frame) : List (List ℚ) :=
  (rowsOf (dataFrame L f) Md.pipeFeatures).map Md.transformRow

/-- Value of the named column in a (names, values) row pairing. -/
def lookupQ : List String → List ℚ → String → ℚ
  | n :: ns, v :: vs, m => if n = m then v else lookupQ ns vs m
  | _, _, _ => 0

/-- `row.loc[sub]`: the row (with columns `names`) restricted to the
feature subset `sub`, in `sub`'s order. -/
def restrict (names : List String) (vals : List ℚ) (sub : List String) : List ℚ :=
  sub.map (fun n => lookupQ names vals n)

/-- `mw_calc = [MolWt(Chem.MolFromSmiles(smi)) for smi in df['SMILES']]`
(line 219); the default 0 is never used on the valid-input path. -/
def mwCalc (L : Libs M) (f : Frame) : List ℚ :=
  (smilesOf f).map (fun s => ((L.molFromSmiles s).map L.molWt).getD 0)

/-- `model1.predict(data_input.loc[:, model1.feature_names_in_])`. -/
def preds1 (L : Libs M) (Md : Models) (f : Frame) : List ℚ :=
  (dataInput L Md f).map (fun r => Md.predict1 (restrict Md.pipeFeatures r Md.feat1))

/-- `model2.predict(data_input.loc[:, model2.feature_names_in_])`. -/
def preds2 (L : Libs M) (Md : Models) (f : Frame) : List ℚ :=
  (dataInput L Md f).map (fun r => Md.predict2 (restrict Md.pipeFeatures r Md.feat2))

/-- `model3.predict(data_input.loc[:, model3.feature_names_in_])`. -/
def preds3 (L : Libs M) (Md : Models) (f : Frame) : List ℚ :=
  (dataInput L Md f).map (fun r => Md.predict3 (restrict Md.pipeFeatures r Md.feat3))

/-- `[(10**-(c))*mw_*1000 for c, mw_ in zip(preds, mw_calc)]`. -/
def toMgL (L : Libs M) (preds mws : List ℚ) : List ℚ :=
  (preds.zip mws).map (fun cm => L.tenPowNeg cm.1 * cm.2 * 1000)

/-- The ETR predictions in mg/L (line 225). -/
def mgl1 (L : Libs M) (Md : Models) (f : Frame) : List ℚ :=
  toMgL L (preds1 L Md f) (mwCalc L f)

/-- The XGB predictions in mg/L (line 229). -/
def mgl2 (L : Libs M) (Md : Models) (f : Frame) : List ℚ :=
  toMgL L (preds2 L Md f) (mwCalc L f)

/-- The GB predictions in mg/L (line 233). -/
def mgl3 (L : Libs M) (Md : Models) (f : Frame) : List ℚ :=
  toMgL L (preds3 L Md f) (mwCalc L f)

/-- `np.mean([y1, y2, y3])`: arithmetic mean of three values. -/
def mean3 (y1 y2 y3 : ℚ) : ℚ := (y1 + y2 + y3) / 3

/-- The squared-deviation average with divisor 3: the population variance
computed by `np.std` with its default `ddof=0`. -/
def pvar3 (y1 y2 y3 : ℚ) : ℚ :=
  ((y1 - mean3 y1 y2 y3) ^ 2 + (y2 - mean3 y1 y2 y3) ^ 2 + (y3 - mean3 y1 y2 y3) ^ 2) / 3

/-- `np.std([y1, y2, y3])` (default `ddof=0`): square root of the
population variance. -/
def std3 (sqrtFn : ℚ → ℚ) (y1 y2 y3 : ℚ) : ℚ := sqrtFn (pvar3 y1 y2 y3)

/-- `[np.mean([y1,y2,y3]) for y1,y2,y3 in zip(ETR, XGB, GB)]` on the
log-molar predictions (line 240). -/
def consensusLogM (L : Libs M) (Md : Models) (f : Frame) : List ℚ :=
  List.zipWith3 mean3 (preds1 L Md f) (preds2 L Md f) (preds3 L Md f)

/-- `[np.std([y1,y2,y3]) for ...]` on the log-molar predictions (line 244). -/
def intervalLogM (L : Libs M) (Md : Models) (f : Frame) : List ℚ :=
  List.zipWith3 (std3 L.sqrtFn) (preds1 L Md f) (preds2 L Md f) (preds3 L Md f)

/-- Consensus over the mg/L predictions (line 247). -/
def consensusMgL (L : Libs M) (Md : Models) (f : Frame) : List ℚ :=
  List.zipWith3 mean3 (mgl1 L Md f) (mgl2 L Md f) (mgl3 L Md f)

/-- Uncertainty over the mg/L predictions (line 248). -/
def intervalMgL (L : Libs M) (Md : Models) (f : Frame) : List ℚ :=
  List.zipWith3 (std3 L.sqrtFn) (mgl1 L Md f) (mgl2 L Md f) (mgl3 L Md f)

/-- Column name of the ETR log-molar predictions. -/
abbrev nmETRlog : String := "Predictions_ETR [-log(IC50) M]"
/-- Column name of the ETR mg/L predictions. -/
abbrev nmETRmgL : String := "Predictions_ETR [mg/L]"
/-- Column name of the XGB log-molar predictions. -/
abbrev nmXGBlog : String := "Predictions_XGB [-log(IC50) M]"
/-- Column name of the XGB mg/L predictions. -/
abbrev nmXGBmgL : String := "Predictions_XGB [mg/L]"
/-- Column name of the GB log-molar predictions. -/
abbrev nmGBlog : String := "Predictions_GB [-log(IC50) M]"
/-- Column name of the GB mg/L predictions. -/
abbrev nmGBmgL : String := "Predictions_GB [mg/L]"
/-- Column name of the log-molar consensus. -/
abbrev nmConsLog : String := "Consensus [-log(IC50) M]"
/-- Column name of the log-molar uncertainty interval. -/
abbrev nmIntLog : String := "Interval [-log(IC50) M]"
/-- Column name of the mg/L consensus. -/
abbrev nmConsMgL : String := "Consensus [mg/L]"
/-- Column name of the mg/L uncertainty interval. -/
abbrev nmIntMgL : String := "Interval [mg/L]"
/-- Column name of the combined display string (spelling as in Main.py). -/
abbrev nmDisplay : String := "Consensus AND Uncertanty [mg/L]"
/-- Column name of the applicability-domain flag. -/
abbrev nmAD : String := "Applicability Domain"

/-- The frame after Main.py lines 223-248: the ten prediction/aggregation
columns assigned in source order, before `round(df, 3)`. -/
def rawFrame (L : Libs M) (Md : Models) (f : Frame) : Frame :=
  let f1 := setCol f nmETRlog (numCol (preds1 L Md f))
  let f2 := setCol f1 nmETRmgL (numCol (mgl1 L Md f))
  let f3 := setCol f2 nmXGBlog (numCol (preds2 L Md f))
  let f4 := setCol f3 nmXGBmgL (numCol (mgl2 L Md f))
  let f5 := setCol f4 nmGBlog (numCol (preds3 L Md f))
  let f6 := setCol f5 nmGBmgL (numCol (mgl3 L Md f))
  let f7 := setCol f6 nmConsLog (numCol (consensusLogM L Md f))
  let f8 := setCol f7 nmIntLog (numCol (intervalLogM L Md f))
  let f9 := setCol f8 nmConsMgL (numCol (consensusMgL L Md f))
  setCol f9 nmIntMgL (numCol (intervalMgL L Md f))

/-- Rounding as applied cellwise by `round(df, 3)`: numeric cells are
rounded, string/label/missing cells are untouched. -/
def roundCell (r : ℚ → ℚ) : Cell → Cell
  | .num v => .num (r v)
  | c => c

/-- `df = round(df, 3)` (line 251). -/
def roundAll (r : ℚ → ℚ) (f : Frame) : Frame :=
  f.map (fun nc => (nc.1, nc.2.map (roundCell r)))

/-- The frame after line 251. -/
def roundedFrame (L : Libs M) (Md : Models) (f : Frame) : Frame :=
  roundAll L.roundFn (rawFrame L Md f)

/-- `[f"{str(y)} ± {i}" for y, i in zip(df['Consensus [mg/L]'], df['Interval [mg/L]'])]`
(line 254), read from the already-rounded frame. -/
def displayCol (L : Libs M) (Md : Models) (f : Frame) : Col :=
  ((qColD (roundedFrame L Md f) nmConsMgL).zip (qColD (roundedFrame L Md f) nmIntMgL)).map
    (fun yi => Cell.str (L.fmt yi.1 ++ " ± " ++ L.fmt yi.2))

/-- The frame after line 254. -/
def withDisplay (L : Libs M) (Md : Models) (f : Frame) : Frame :=
  setCol (roundedFrame L Md f) nmDisplay (displayCol L Md f)

/-- `ad.predict(data_input.loc[:, model2.feature_names_in_])` (line 261):
the applicability-domain classifier evaluated on the second model's
declared feature subset. -/
def adColumn (L : Libs M) (Md : Models) (f : Frame) : Col :=
  (dataInput L Md f).map (fun r => Cell.lab (Md.adPredict (restrict Md.pipeFeatures r Md.feat2)))

/-- The fully populated result frame (after line 261). -/
def finalTotal (L : Libs M) (Md : Models) (f : Frame) : Frame :=
  setCol (withDisplay L Md f) nmAD (adColumn L Md f)

/-- How a run terminates abnormally. -/
inductive Failure where
  /-- An unhandled library exception aborts the process with a traceback. -/
  | uncaught
  /-- A deliberate `sys.exit(code)` after printing `msg` — the path
  `check_smiles` was written for. -/
  | diagnostic (msg : String) (code : ℕ)
deriving DecidableEq

/-- The pipeline body: on an unparsable SMILES the descriptor and
molecular-weight steps raise (Mordred and `MolWt` reject a `None`
molecule), which terminates the run as an unhandled exception; otherwise
the result frame is produced. -/
def finalFrameE (L : Libs M) (Md : Models) (f : Frame) : Except Failure Frame :=
  if validInput L f then .ok (finalTotal L Md f) else .error .uncaught

/-- Python truthiness of the `--summary` argument value: `None` and the
empty string are falsy, every other string is truthy. -/
def pyTruthy : Option String → Bool
  | none => false
  | some s => !s.isEmpty

/-- The three columns of the summary export (line 273). -/
def summaryNames : List String := ["SMILES", nmDisplay, nmAD]

/-- Lines 267-277: choose the summary or full column set and the
date-stamped output filename; `d` is `datetime.now().strftime("%d_%m_%Y")`. -/
def exportStep (summary : Option String) (f : Frame) (d : String) : String × Frame :=
  if pyTruthy summary then
    ("Summary_predictions_" ++ d ++ ".xlsx", selectCols f summaryNames)
  else
    ("Predictions_" ++ d ++ ".xlsx", f)

/-- Whether `p` starts the character list `l`. -/
def startsChars : List Char → List Char → Bool
  | [], _ => true
  | _ :: _, [] => false
  | a :: as, b :: bs => a = b && startsChars as bs

/-- Whether `p` occurs as a contiguous substring of `l`. -/
def occursChars (p : List Char) : List Char → Bool
  | [] => startsChars p []
  | b :: bs => startsChars p (b :: bs) || occursChars p bs

/-- Python `".xlsx" in input_value`. -/
def containsXlsx (s : String) : Bool := occursChars ".xlsx".toList s.toList

/-- Lines 185-188: if the input value does not contain `".xlsx"`, build a
one-row frame around it as a SMILES string; otherwise read it as a batch
spreadsheet. -/
def inputFrame (L : Libs M) (input_value : String) : Frame :=
  if !containsXlsx input_value then [("SMILES", [Cell.str input_value])]
  else L.readExcel input_value

/-- `files_importer` (lines 150-158): `input_value` is `args.smiles`,
falling back to `args.filename` when absent; `args.summary` is returned
untouched. -/
def files_importer (smilesArg filenameArg summaryArg : Option String) :
    Option String × Option String :=
  (match smilesArg with
   | some s => some s
   | none => filenameArg,
   summaryArg)

/-- The whole `__main__` block on a resolved input value: input frame,
pipeline, export.  The returned pair is the output filename and the
exported frame; `check_smiles` is nowhere in this flow (Main.py never
calls it). -/
def run (L : Libs M) (Md : Models) (input_value : String) (summary : Option String)
    (d : String) : Except Failure (String × Frame) :=
  (finalFrameE L Md (inputFrame L input_value)).map (fun f => exportStep summary f d)

/-- RDKit `Chem.MolFromSmiles` wrapped in the exception semantics of the
`try` block of `check_smiles`: for an unparsable string RDKit returns
`None` (here `none`) instead of raising, so the call always returns
normally. -/
def molFromSmilesExc (parse : String → Option M) (s : String) : Except Unit (Option M) :=
  Except.ok (parse s)

/-- `check_smiles` (lines 60-77): `sys.exit(1)` with the diagnostic only
when `Chem.MolFromSmiles` raises. -/
def check_smiles (parse : String → Option M) (s : String) : Except (String × ℕ) Unit :=
  match molFromSmilesExc parse s with
  | Except.ok _ => Except.ok ()
  | Except.error _ => Except.error (s ++ ": invalid smiles!", 1)

/-- Rounding a rational to 3 decimal places (a concrete instance of the
`roundFn` parameter, used to exhibit that rounding before vs. after
aggregation differ). -/
def round3 (x : ℚ) : ℚ := ((round (1000 * x) : ℤ) : ℚ) / 1000

/-- A concrete instantiation of the external libraries, for evaluating the
pipeline on closed inputs ("N(" plays an unparsable SMILES). -/
def demoLibs : Libs ℚ where
  molFromSmiles := fun s => if s = "N(" then none else some 1
  molWt := id
  descNames := ["nAtom"]
  desc := fun m _ => some m
  readExcel := fun _ => [("SMILES", [Cell.str "CCO", Cell.str "CCN"])]
  tenPowNeg := fun _ => 1
  sqrtFn := fun _ => 0
  roundFn := id
  fmt := fun _ => "v"

/-- A concrete instantiation of the model artifacts. -/
def demoModels : Models where
  feat1 := ["nAtom"]
  feat2 := ["nAtom"]
  feat3 := ["nAtom"]
  predict1 := fun _ => 4
  predict2 := fun _ => 5
  predict3 := fun _ => 6
  pipeFeatures := ["nAtom"]
  transformRow := fun r => r.map (fun v => v.getD 0)
  adPredict := fun _ => 1

/-- A concrete one-row input frame. -/
def demoFrame : Frame := [("SMILES", [Cell.str "CCO"])]

theorem colOf_setCol_self (f : Frame) (n : String) (c : Col) :
    colOf (setCol f n c) n = some c := by
  induction f with
  | nil => simp [setCol, colOf]
  | cons hd t ih =>
    obtain ⟨m, d⟩ := hd
    by_cases hm : m = n
    · simp [setCol, hm, colOf]
    · simp [setCol, hm, colOf, ih]

theorem colOf_setCol_ne (f : Frame) (n : String) (c : Col) (m : String) (h : m ≠ n) :
    colOf (setCol f n c) m = colOf f m := by
  induction f with
  | nil => simp [setCol, colOf, Ne.symm h]
  | cons hd t ih =>
    obtain ⟨k, d⟩ := hd
    by_cases hk : k = n
    · subst hk
      simp [setCol, colOf, Ne.symm h]
    · simp [setCol, hk, colOf, ih]

theorem mem_setCol (f : Frame) (n : String) (c : Col) (nc : String × Col)
    (h : nc ∈ setCol f n c) : nc ∈ f ∨ nc = (n, c) := by
  induction f with
  | nil =>
    simp [setCol] at h
    right
    exact h
  | cons hd t ih =>
    obtain ⟨k, d⟩ := hd
    by_cases hk : k = n
    · subst hk
      simp [setCol] at h
      rcases h with h | h
      · right
        exact h
      · left
        simp [h]
    · simp [setCol, hk] at h
      rcases h with h | h
      · left
        simp [h]
      · rcases ih h with h2 | h2
        · left
          simp [h2]
        · right
          exact h2

theorem colOf_append_of_isSome (f g : Frame) (n : String) (h : (colOf f n).isSome) :
    colOf (f ++ g) n = colOf f n := by
  induction f with
  | nil => simp [colOf] at h
  | cons hd t ih =>
    obtain ⟨k, d⟩ := hd
    by_cases hk : k = n
    · simp [colOf, hk]
    · simp [colOf, hk] at h ⊢
      exact ih h

theorem colOf_roundAll (r : ℚ → ℚ) (f : Frame) (n : String) :
    colOf (roundAll r f) n = (colOf f n).map (fun c => c.map (roundCell r)) := by
  induction f with
  | nil => simp [roundAll, colOf]
  | cons hd t ih =>
    obtain ⟨k, d⟩ := hd
    by_cases hk : k = n
    · simp [roundAll, colOf, hk]
    · simp only [roundAll, List.map] at ih ⊢
      simp [colOf, hk, ih]

theorem colOf_raw_ETRlog (L : Libs M) (Md : Models) (f : Frame) :
    colOf (rawFrame L Md f) nmETRlog = some (numCol (preds1 L Md f)) := by
  simp only [rawFrame]
  rw [colOf_setCol_ne _ _ _ _ (by decide), colOf_setCol_ne _ _ _ _ (by decide),
    colOf_setCol_ne _ _ _ _ (by decide), colOf_setCol_ne _ _ _ _ (by decide),
    colOf_setCol_ne _ _ _ _ (by decide), colOf_setCol_ne _ _ _ _ (by decide),
    colOf_setCol_ne _ _ _ _ (by decide), colOf_setCol_ne _ _ _ _ (by decide),
    colOf_setCol_ne _ _ _ _ (by decide), colOf_setCol_self]

theorem colOf_raw_ETRmgL (L : Libs M) (Md : Models) (f : Frame) :
    colOf (rawFrame L Md f) nmETRmgL = some (numCol (mgl1 L Md f)) := by
  simp only [rawFrame]
  rw [colOf_setCol_ne _ _ _ _ (by decide), colOf_setCol_ne _ _ _ _ (by decide),
    colOf_setCol_ne _ _ _ _ (by decide), colOf_setCol_ne _ _ _ _ (by decide),
    colOf_setCol_ne _ _ _ _ (by decide), colOf_setCol_ne _ _ _ _ (by decide),
    colOf_setCol_ne _ _ _ _ (by decide), colOf_setCol_ne _ _ _ _ (by decide),
    colOf_setCol_self]

theorem colOf_raw_XGBlog (L : Libs M) (Md : Models) (f : Frame) :
    colOf (rawFrame L Md f) nmXGBlog = some (numCol (preds2 L Md f)) := by
  simp only [rawFrame]
  rw [colOf_setCol_ne _ _ _ _ (by decide), colOf_setCol_ne _ _ _ _ (by decide),
    colOf_setCol_ne _ _ _ _ (by decide), colOf_setCol_ne _ _ _ _ (by decide),
    colOf_setCol_ne _ _ _ _ (by decide), colOf_setCol_ne _ _ _ _ (by decide),
    colOf_setCol_ne _ _ _ _ (by decide), colOf_setCol_self]

theorem colOf_raw_XGBmgL (L : Libs M) (Md : Models) (f : Frame) :
    colOf (rawFrame L Md f) nmXGBmgL = some (numCol (mgl2 L Md f)) := by
  simp only [rawFrame]
  rw [colOf_setCol_ne _ _ _ _ (by decide), colOf_setCol_ne _ _ _ _ (by decide),
    colOf_setCol_ne _ _ _ _ (by decide), colOf_setCol_ne _ _ _ _ (by decide),
    colOf_setCol_ne _ _ _ _ (by decide), colOf_setCol_ne _ _ _ _ (by decide),
    colOf_setCol_self]

theorem colOf_raw_GBlog (L : Libs M) (Md : Models) (f : Frame) :
    colOf (rawFrame L Md f) nmGBlog = some (numCol (preds3 L Md f)) := by
  simp only [rawFrame]
  rw [colOf_setCol_ne _ _ _ _ (by decide), colOf_setCol_ne _ _ _ _ (by decide),
    colOf_setCol_ne _ _ _ _ (by decide), colOf_setCol_ne _ _ _ _ (by decide),
    colOf_setCol_ne _ _ _ _ (by decide), colOf_setCol_self]

theorem colOf_raw_GBmgL (L : Libs M) (Md : Models) (f : Frame) :
    colOf (rawFrame L Md f) nmGBmgL = some (numCol (mgl3 L Md f)) := by
  simp only [rawFrame]
  rw [colOf_setCol_ne _ _ _ _ (by decide), colOf_setCol_ne _ _ _ _ (by decide),
    colOf_setCol_ne _ _ _ _ (by decide), colOf_setCol_ne _ _ _ _ (by decide),
    colOf_setCol_self]

theorem colOf_raw_ConsLog (L : Libs M) (Md : Models) (f : Frame) :
    colOf (rawFrame L Md f) nmConsLog = some (numCol (consensusLogM L Md f)) := by
  simp only [rawFrame]
  rw [colOf_setCol_ne _ _ _ _ (by decide), colOf_setCol_ne _ _ _ _ (by decide),
    colOf_setCol_ne _ _ _ _ (by decide), colOf_setCol_self]

theorem colOf_raw_IntLog (L : Libs M) (Md : Models) (f : Frame) :
    colOf (rawFrame L Md f) nmIntLog = some (numCol (intervalLogM L Md f)) := by
  simp only [rawFrame]
  rw [colOf_setCol_ne _ _ _ _ (by decide), colOf_setCol_ne _ _ _ _ (by decide),
    colOf_setCol_self]

theorem colOf_raw_ConsMgL (L : Libs M) (Md : Models) (f : Frame) :
    colOf (rawFrame L Md f) nmConsMgL = some (numCol (consensusMgL L Md f)) := by
  simp only [rawFrame]
  rw [colOf_setCol_ne _ _ _ _ (by decide), colOf_setCol_self]

theorem colOf_raw_IntMgL (L : Libs M) (Md : Models) (f : Frame) :
    colOf (rawFrame L Md f) nmIntMgL = some (numCol (intervalMgL L Md f)) := by
  simp only [rawFrame]
  rw [colOf_setCol_self]

theorem colOf_raw_smiles (L : Libs M) (Md : Models) (f : Frame) :
    colOf (rawFrame L Md f) "SMILES" = colOf f "SMILES" := by
  simp only [rawFrame]
  rw [colOf_setCol_ne _ _ _ _ (by decide), colOf_setCol_ne _ _ _ _ (by decide),
    colOf_setCol_ne _ _ _ _ (by decide), colOf_setCol_ne _ _ _ _ (by decide),
    colOf_setCol_ne _ _ _ _ (by decide), colOf_setCol_ne _ _ _ _ (by decide),
    colOf_setCol_ne _ _ _ _ (by decide), colOf_setCol_ne _ _ _ _ (by decide),
    colOf_setCol_ne _ _ _ _ (by decide), colOf_setCol_ne _ _ _ _ (by decide)]

theorem numCol_map_cellQ (l : List ℚ) : (numCol l).map cellQ = l := by
  induction l with
  | nil => rfl
  | cons a t ih =>
    simp only [numCol, List.map] at ih ⊢
    simp [cellQ, ih]

theorem numCol_map_round (r : ℚ → ℚ) (l : List ℚ) :
    (numCol l).map (roundCell r) = numCol (l.map r) := by
  simp [numCol, List.map_map, Function.comp, roundCell]

theorem qColD_of_num (f : Frame) (n : String) (l : List ℚ)
    (h : colOf f n = some (numCol l)) : qColD f n = l := by
  simp [qColD, h, numCol_map_cellQ]

theorem colOf_final_AD (L : Libs M) (Md : Models) (f : Frame) :
    colOf (finalTotal L Md f) nmAD = some (adColumn L Md f) := by
  simp only [finalTotal]
  rw [colOf_setCol_self]

theorem colOf_final_display (L : Libs M) (Md : Models) (f : Frame) :
    colOf (finalTotal L Md f) nmDisplay = some (displayCol L Md f) := by
  simp only [finalTotal, withDisplay]
  rw [colOf_setCol_ne _ _ _ _ (by decide), colOf_setCol_self]

theorem colOf_final_of_ne (L : Libs M) (Md : Models) (f : Frame) (n : String)
    (h1 : n ≠ nmDisplay) (h2 : n ≠ nmAD) :
    colOf (finalTotal L Md f) n
      = (colOf (rawFrame L Md f) n).map (fun c => c.map (roundCell L.roundFn)) := by
  simp only [finalTotal, withDisplay, roundedFrame]
  rw [colOf_setCol_ne _ _ _ _ h2, colOf_setCol_ne _ _ _ _ h1, colOf_roundAll]

theorem qColD_rounded_ConsMgL (L : Libs M) (Md : Models) (f : Frame) :
    qColD (roundedFrame L Md f) nmConsMgL = (consensusMgL L Md f).map L.roundFn := by
  apply qColD_of_num
  simp only [roundedFrame]
  rw [colOf_roundAll, colOf_raw_ConsMgL]
  simp [numCol_map_round]

theorem qColD_rounded_IntMgL (L : Libs M) (Md : Models) (f : Frame) :
    qColD (roundedFrame L Md f) nmIntMgL = (intervalMgL L Md f).map L.roundFn := by
  apply qColD_of_num
  simp only [roundedFrame]
  rw [colOf_roundAll, colOf_raw_IntMgL]
  simp [numCol_map_round]

theorem displayCol_eq (L : Libs M) (Md : Models) (f : Frame) :
    displayCol L Md f
      = (((consensusMgL L Md f).map L.roundFn).zip ((intervalMgL L Md f).map L.roundFn)).map
          (fun yi => Cell.str (L.fmt yi.1 ++ " ± " ++ L.fmt yi.2)) := by
  simp only [displayCol, qColD_rounded_ConsMgL, qColD_rounded_IntMgL]

theorem mem_fst_of_colOf (f : Frame) (n : String) (c : Col) (h : colOf f n = some c) :
    n ∈ f.map Prod.fst := by
  induction f with
  | nil => simp [colOf] at h
  | cons hd t ih =>
    obtain ⟨k, d⟩ := hd
    by_cases hk : k = n
    · simp [hk]
    · simp [colOf, hk] at h
      simp [ih h]

theorem length_ge_of_names (f : Frame) (names : List String) (hnd : names.Nodup)
    (hmem : ∀ n ∈ names, (colOf f n).isSome) : names.length ≤ f.length := by
  have h1 : names.toFinset.card = names.length := List.toFinset_card_of_nodup hnd
  have h2 : names.toFinset ⊆ (f.map Prod.fst).toFinset := by
    intro x hx
    simp only [List.mem_toFinset] at hx ⊢
    obtain ⟨c, hc⟩ := Option.isSome_iff_exists.mp (hmem x hx)
    exact mem_fst_of_colOf f x c hc
  calc names.length = names.toFinset.card := h1.symm
    _ ≤ (f.map Prod.fst).toFinset.card := Finset.card_le_card h2
    _ ≤ (f.map Prod.fst).length := (f.map Prod.fst).toFinset_card_le
    _ = f.length := List.length_map _ _

theorem length_zipWith3 {α β γ δ : Type} (g : α → β → γ → δ) :
    ∀ (as : List α) (bs : List β) (cs : List γ),
      (List.zipWith3 g as bs cs).length = min (min as.length bs.length) cs.length
  | [], _, _ => by simp [List.zipWith3]
  | _ :: _, [], _ => by simp [List.zipWith3]
  | _ :: _, _ :: _, [] => by simp [List.zipWith3]
  | _ :: as, _ :: bs, _ :: cs => by
    simp only [List.zipWith3, List.length_cons, length_zipWith3 g as bs cs]
    omega

theorem getStr_roundCell (r : ℚ → ℚ) (c : Cell) : getStr (roundCell r c) = getStr c := by
  cases c <;> rfl

theorem smilesOf_dataFrame (L : Libs M) (f : Frame) (h : (colOf f "SMILES").isSome) :
    smilesOf (dataFrame L f) = smilesOf f := by
  simp only [smilesOf, dataFrame]
  rw [colOf_append_of_isSome _ _ _ h]

theorem all_len_setCol (f : Frame) (n : String) (c : Col) (k : ℕ)
    (hf : ∀ nc ∈ f, (nc : String × Col).2.length = k) (hc : c.length = k) :
    ∀ nc ∈ setCol f n c, (nc : String × Col).2.length = k := by
  intro nc h
  rcases mem_setCol f n c nc h with h2 | h2
  · exact hf nc h2
  · rw [h2]
    exact hc

/-- C2: For every molecule in the result table, the consensus value equals the
arithmetic mean of the three per-model predictions, computed independently in
each of the two unit systems (log-molar and mg/L). -/
theorem C2_consensus_is_mean {M : Type} (L : Libs M) (Md : Models) (f : Frame) :
    qColD (rawFrame L Md f) nmConsLog
      = List.zipWith3 mean3 (qColD (rawFrame L Md f) nmETRlog)
          (qColD (rawFrame L Md f) nmXGBlog) (qColD (rawFrame L Md f) nmGBlog)
  ∧ qColD (rawFrame L Md f) nmConsMgL
      = List.zipWith3 mean3 (qColD (rawFrame L Md f) nmETRmgL)
          (qColD (rawFrame L Md f) nmXGBmgL) (qColD (rawFrame L Md f) nmGBmgL)
  ∧ (∀ y1 y2 y3 : ℚ, mean3 y1 y2 y3 = (y1 + y2 + y3) / 3) := by
  refine ⟨?_, ?_, fun _ _ _ => rfl⟩
  · rw [qColD_of_num _ _ _ (colOf_raw_ConsLog L Md f),
      qColD_of_num _ _ _ (colOf_raw_ETRlog L Md f),
      qColD_of_num _ _ _ (colOf_raw_XGBlog L Md f),
      qColD_of_num _ _ _ (colOf_raw_GBlog L Md f)]
    rfl
  · rw [qColD_of_num _ _ _ (colOf_raw_ConsMgL L Md f),
      qColD_of_num _ _ _ (colOf_raw_ETRmgL L Md f),
      qColD_of_num _ _ _ (colOf_raw_XGBmgL L Md f),
      qColD_of_num _ _ _ (colOf_raw_GBmgL L Md f)]
    rfl

/-- C3: For every molecule in the result table, the uncertainty value equals
the population standard deviation (divisor 3, as in `np.std` with its default
`ddof=0`, not the sample-corrected divisor 2) of the same three per-model
predictions, computed independently in each unit system.  The final conjunct
pins the divisor: on the values 0, 0, 3 the squared-deviation average is 2
(it would be 3 with the sample-corrected divisor 2). -/
theorem C3_uncertainty_is_population_std {M : Type} (L : Libs M) (Md : Models) (f : Frame) :
    qColD (rawFrame L Md f) nmIntLog
      = List.zipWith3 (std3 L.sqrtFn) (qColD (rawFrame L Md f) nmETRlog)
          (qColD (rawFrame L Md f) nmXGBlog) (qColD (rawFrame L Md f) nmGBlog)
  ∧ qColD (rawFrame L Md f) nmIntMgL
      = List.zipWith3 (std3 L.sqrtFn) (qColD (rawFrame L Md f) nmETRmgL)
          (qColD (rawFrame L Md f) nmXGBmgL) (qColD (rawFrame L Md f) nmGBmgL)
  ∧ (∀ y1 y2 y3 : ℚ, std3 L.sqrtFn y1 y2 y3
      = L.sqrtFn (((y1 - mean3 y1 y2 y3) ^ 2 + (y2 - mean3 y1 y2 y3) ^ 2
          + (y3 - mean3 y1 y2 y3) ^ 2) / 3))
  ∧ pvar3 0 0 3 = 2 := by
  refine ⟨?_, ?_, fun _ _ _ => rfl, by norm_num [pvar3, mean3]⟩
  · rw [qColD_of_num _ _ _ (colOf_raw_IntLog L Md f),
      qColD_of_num _ _ _ (colOf_raw_ETRlog L Md f),
      qColD_of_num _ _ _ (colOf_raw_XGBlog L Md f),
      qColD_of_num _ _ _ (colOf_raw_GBlog L Md f)]
    rfl
  · rw [qColD_of_num _ _ _ (colOf_raw_IntMgL L Md f),
      qColD_of_num _ _ _ (colOf_raw_ETRmgL L Md f),
      qColD_of_num _ _ _ (colOf_raw_XGBmgL L Md f),
      qColD_of_num _ _ _ (colOf_raw_GBmgL L Md f)]
    rfl

/-- C4: For every molecule and every one of the three models, the mg/L
prediction column equals `10^(-p) * w * 1000` before rounding, where `p` is
that model's log-molar prediction and `w` the molecular weight computed from
the molecule's parsed structural graph (`MolWt(MolFromSmiles(smi))` over the
SMILES column, independent of the model artifacts). -/
theorem C4_mgl_unit_conversion {M : Type} (L : Libs M) (Md : Models) (f : Frame) :
    qColD (rawFrame L Md f) nmETRmgL
      = ((qColD (rawFrame L Md f) nmETRlog).zip (mwCalc L f)).map
          (fun cm => L.tenPowNeg cm.1 * cm.2 * 1000)
  ∧ qColD (rawFrame L Md f) nmXGBmgL
      = ((qColD (rawFrame L Md f) nmXGBlog).zip (mwCalc L f)).map
          (fun cm => L.tenPowNeg cm.1 * cm.2 * 1000)
  ∧ qColD (rawFrame L Md f) nmGBmgL
      = ((qColD (rawFrame L Md f) nmGBlog).zip (mwCalc L f)).map
          (fun cm => L.tenPowNeg cm.1 * cm.2 * 1000)
  ∧ mwCalc L f = (smilesOf f).map (fun s => ((L.molFromSmiles s).map L.molWt).getD 0) := by
  refine ⟨?_, ?_, ?_, rfl⟩
  · rw [qColD_of_num _ _ _ (colOf_raw_ETRmgL L Md f),
      qColD_of_num _ _ _ (colOf_raw_ETRlog L Md f)]
    rfl
  · rw [qColD_of_num _ _ _ (colOf_raw_XGBmgL L Md f),
      qColD_of_num _ _ _ (colOf_raw_XGBlog L Md f)]
    rfl
  · rw [qColD_of_num _ _ _ (colOf_raw_GBmgL L Md f),
      qColD_of_num _ _ _ (colOf_raw_GBlog L Md f)]
    rfl

/-- C9: Input-mode dispatch depends only on whether the input value contains
the substring ".xlsx", not on which command-line flag supplied it:
`files_importer` forwards the value identically from `--smiles` and from
`--filename`, and the frame construction branches solely on the substring
test (".xlsx" present: read as a batch spreadsheet; absent: one-row SMILES
frame). -/
theorem C9_dispatch_by_xlsx_substring {M : Type} (L : Libs M) (v : String) (a : Option String) :
    (files_importer (some v) none a).1 = some v
  ∧ (files_importer none (some v) a).1 = some v
  ∧ inputFrame L v
      = (if containsXlsx v then L.readExcel v else [("SMILES", [Cell.str v])])
  ∧ containsXlsx "molecules.xlsx" = true
  ∧ containsXlsx "CCO" = false := by
  refine ⟨rfl, rfl, ?_, by decide, by decide⟩
  by_cases h : containsXlsx v <;> simp [inputFrame, h]

/-- C10: The `--summary` value is an uninterpreted string tested only for
Python truthiness: every non-empty string (including "0", "False", "no")
selects the summarized output, and only an absent flag (`None`) or the empty
string selects the full output; `files_importer` passes the value through
unchanged. -/
theorem C10_summary_flag_truthiness (F : Frame) (d s : String) (a b : Option String) :
    pyTruthy none = false
  ∧ pyTruthy (some "") = false
  ∧ pyTruthy (some "0") = true
  ∧ pyTruthy (some "False") = true
  ∧ pyTruthy (some "no") = true
  ∧ pyTruthy (some s) = !s.isEmpty
  ∧ (files_importer a b (some s)).2 = some s
  ∧ exportStep (some "0") F d
      = ("Summary_predictions_" ++ d ++ ".xlsx", selectCols F summaryNames)
  ∧ exportStep none F d = ("Predictions_" ++ d ++ ".xlsx", F)
  ∧ exportStep (some "") F d = ("Predictions_" ++ d ++ ".xlsx", F) := by
  have h0 : pyTruthy (some "0") = true := by decide
  have he : pyTruthy (some "") = false := by decide
  refine ⟨rfl, he, h0, by decide, by decide, rfl, rfl, ?_, rfl, ?_⟩
  · simp [exportStep, h0]
  · simp [exportStep, he]

/-- C5: Rounding to 3 decimal places is applied only for display/export: in
the final table every aggregated column is the elementwise rounding of the
aggregate of the full-precision per-model predictions (rounding happens after
aggregation, never before), and the combined "consensus ± uncertainty"
display string is built from the rounded mg/L values.  The last two
conjuncts exhibit, for the concrete 3-decimal rounding `round3`, that
rounding before aggregation would give a different result (0 vs 1/3000). -/
theorem C5_rounding_only_at_export {M : Type} (L : Libs M) (Md : Models) (f : Frame) :
    qColD (finalTotal L Md f) nmConsMgL = (consensusMgL L Md f).map L.roundFn
  ∧ qColD (finalTotal L Md f) nmIntMgL = (intervalMgL L Md f).map L.roundFn
  ∧ qColD (finalTotal L Md f) nmConsLog = (consensusLogM L Md f).map L.roundFn
  ∧ qColD (finalTotal L Md f) nmIntLog = (intervalLogM L Md f).map L.roundFn
  ∧ consensusMgL L Md f = List.zipWith3 mean3 (mgl1 L Md f) (mgl2 L Md f) (mgl3 L Md f)
  ∧ colOf (finalTotal L Md f) nmDisplay
      = some ((((consensusMgL L Md f).map L.roundFn).zip
            ((intervalMgL L Md f).map L.roundFn)).map
          (fun yi => Cell.str (L.fmt yi.1 ++ " ± " ++ L.fmt yi.2)))
  ∧ round3 (mean3 (1 / 2000) 0 0) = 0
  ∧ mean3 (round3 (1 / 2000)) (round3 0) (round3 0) = 1 / 3000 := by
  refine ⟨?_, ?_, ?_, ?_, rfl, ?_, ?_, ?_⟩
  · apply qColD_of_num
    rw [colOf_final_of_ne L Md f _ (by decide) (by decide), colOf_raw_ConsMgL]
    simp [numCol_map_round]
  · apply qColD_of_num
    rw [colOf_final_of_ne L Md f _ (by decide) (by decide), colOf_raw_IntMgL]
    simp [numCol_map_round]
  · apply qColD_of_num
    rw [colOf_final_of_ne L Md f _ (by decide) (by decide), colOf_raw_ConsLog]
    simp [numCol_map_round]
  · apply qColD_of_num
    rw [colOf_final_of_ne L Md f _ (by decide) (by decide), colOf_raw_IntLog]
    simp [numCol_map_round]
  · rw [colOf_final_display, displayCol_eq]
  · norm_num [round3, mean3, round_eq]
  · norm_num [round3, mean3, round_eq]

/-- C6: The applicability-domain column is the classifier evaluated on the
transformed feature table restricted to the second (XGBoost) model's declared
feature subset `feat2` — the same restriction operator and subset the second
model's own predictions use — producing exactly one label per transformed
row, and (given the classifier's binary contract) every label is 0 or 1. -/
theorem C6_ad_on_model2_features {M : Type} (L : Libs M) (Md : Models) (f : Frame)
    (hbin : ∀ r, Md.adPredict r ≤ 1) :
    colOf (finalTotal L Md f) nmAD
      = some ((dataInput L Md f).map
          (fun r => Cell.lab (Md.adPredict (restrict Md.pipeFeatures r Md.feat2))))
  ∧ (adColumn L Md f).length = (dataInput L Md f).length
  ∧ ∀ c ∈ adColumn L Md f, c = Cell.lab 0 ∨ c = Cell.lab 1 := by
  refine ⟨colOf_final_AD L Md f, by simp [adColumn], ?_⟩
  intro c hc
  simp only [adColumn, List.mem_map] at hc
  obtain ⟨r, _, hcr⟩ := hc
  rcases Nat.le_one_iff_eq_zero_or_eq_one.mp (hbin (restrict Md.pipeFeatures r Md.feat2))
    with h0 | h1
  · left
    rw [← hcr, h0]
  · right
    rw [← hcr, h1]

/-- Witness for C6 at a concrete one-row input with concrete artifacts. -/
theorem C6_ad_on_model2_features_witness :
    colOf (finalTotal demoLibs demoModels demoFrame) nmAD
      = some ((dataInput demoLibs demoModels demoFrame).map
          (fun r => Cell.lab (demoModels.adPredict
              (restrict demoModels.pipeFeatures r demoModels.feat2))))
  ∧ (adColumn demoLibs demoModels demoFrame).length
      = (dataInput demoLibs demoModels demoFrame).length
  ∧ ∀ c ∈ adColumn demoLibs demoModels demoFrame, c = Cell.lab 0 ∨ c = Cell.lab 1 :=
  C6_ad_on_model2_features demoLibs demoModels demoFrame (fun _ => Nat.le_refl 1)

/-- C8: With the summary flag truthy the exported table is exactly the three
columns structure / combined string / domain flag under the name
`Summary_predictions_<date>.xlsx`; otherwise the full table — which has
strictly more than three columns, including all six raw per-model prediction
columns in both units — goes to `Predictions_<date>.xlsx` (`d` is the
current-day `strftime("%d_%m_%Y")` stamp). -/
theorem C8_export_columns_and_filenames {M : Type} (L : Libs M) (Md : Models) (f : Frame)
    (d : String) (s : Option String) :
    exportStep s (finalTotal L Md f) d
      = (if pyTruthy s then
          ("Summary_predictions_" ++ d ++ ".xlsx",
            selectCols (finalTotal L Md f) summaryNames)
        else ("Predictions_" ++ d ++ ".xlsx", finalTotal L Md f))
  ∧ (selectCols (finalTotal L Md f) summaryNames).map Prod.fst
      = ["SMILES", nmDisplay, nmAD]
  ∧ (selectCols (finalTotal L Md f) summaryNames).length = 3
  ∧ 3 < (finalTotal L Md f).length
  ∧ (colOf (finalTotal L Md f) nmETRlog).isSome = true
  ∧ (colOf (finalTotal L Md f) nmETRmgL).isSome = true
  ∧ (colOf (finalTotal L Md f) nmXGBlog).isSome = true
  ∧ (colOf (finalTotal L Md f) nmXGBmgL).isSome = true
  ∧ (colOf (finalTotal L Md f) nmGBlog).isSome = true
  ∧ (colOf (finalTotal L Md f) nmGBmgL).isSome = true := by
  have hsome : ∀ n : String, n ≠ nmDisplay → n ≠ nmAD →
      (∃ l, colOf (rawFrame L Md f) n = some (numCol l)) →
      (colOf (finalTotal L Md f) n).isSome = true := by
    intro n h1 h2 hl
    obtain ⟨l, hl⟩ := hl
    rw [colOf_final_of_ne L Md f n h1 h2, hl]
    rfl
  have p1 := hsome nmETRlog (by decide) (by decide) ⟨_, colOf_raw_ETRlog L Md f⟩
  have p2 := hsome nmETRmgL (by decide) (by decide) ⟨_, colOf_raw_ETRmgL L Md f⟩
  have p3 := hsome nmXGBlog (by decide) (by decide) ⟨_, colOf_raw_XGBlog L Md f⟩
  have p4 := hsome nmXGBmgL (by decide) (by decide) ⟨_, colOf_raw_XGBmgL L Md f⟩
  have p5 := hsome nmGBlog (by decide) (by decide) ⟨_, colOf_raw_GBlog L Md f⟩
  have p6 := hsome nmGBmgL (by decide) (by decide) ⟨_, colOf_raw_GBmgL L Md f⟩
  refine ⟨rfl, ?_, rfl, ?_, p1, p2, p3, p4, p5, p6⟩
  · simp [selectCols, summaryNames, List.map_map]
  · have hle : ([nmETRlog, nmETRmgL, nmDisplay, nmAD] : List String).length
        ≤ (finalTotal L Md f).length := by
      apply length_ge_of_names
      · decide
      · intro n hn
        simp only [List.mem_cons, List.not_mem_nil, or_false] at hn
        rcases hn with h | h | h | h
        · rw [h]; exact p1
        · rw [h]; exact p2
        · rw [h]
          rw [colOf_final_display]
          rfl
        · rw [h]
          rw [colOf_final_AD]
          rfl
    simpa using hle

theorem smilesOf_finalTotal (L : Libs M) (Md : Models) (f : Frame) :
    smilesOf (finalTotal L Md f) = smilesOf f := by
  simp only [smilesOf]
  rw [colOf_final_of_ne L Md f _ (by decide) (by decide), colOf_raw_smiles]
  cases h : colOf f "SMILES" with
  | none => rfl
  | some c => simp [List.map_map, Function.comp, getStr_roundCell]

/-- C1 (code bug): Main.py claims that an invalid structure string in
single-input mode exits with status 1 and the diagnostic
`"<smiles>: invalid smiles!"`.  In fact `check_smiles` is never called by
the main block, and even when called it cannot fire: `Chem.MolFromSmiles`
returns `None` for an unparsable string instead of raising, so the
`except` branch with `sys.exit(1)` is unreachable (first conjunct: for
every parse function and every string, valid or not, `check_smiles`
returns normally).  The concrete run on the unparsable SMILES "N(" instead
terminates with an unhandled library exception (second conjunct), not the
promised diagnostic exit, and produces no output file. -/
theorem C1_invalid_smiles_diagnostic_never_happens :
    (∀ (parse : String → Option ℚ) (s : String),
      check_smiles parse s = Except.ok ())
  ∧ run demoLibs demoModels "N(" none "12_10_2026" = Except.error Failure.uncaught := by
  refine ⟨fun _ _ => rfl, ?_⟩
  rfl

/-- C7: For any valid single structure input the output table has exactly one
row, and a batch of N valid rows yields N rows in input order: descriptor
calculation, transform, prediction, aggregation and the final table all
preserve the row count, and the SMILES column of the final table is the
input SMILES list unchanged. -/
theorem C7_row_count_and_order_preserved {M : Type} (L : Libs M) (Md : Models) (f : Frame)
    (hwf : wellFormed f = true) (hval : validInput L f = true) :
    finalFrameE L Md f = Except.ok (finalTotal L Md f)
  ∧ smilesOf (finalTotal L Md f) = smilesOf f
  ∧ (∀ nc ∈ dataFrame L f, (nc : String × Col).2.length = rowCount f)
  ∧ (dataInput L Md f).length = rowCount f
  ∧ (preds1 L Md f).length = rowCount f
  ∧ (preds2 L Md f).length = rowCount f
  ∧ (preds3 L Md f).length = rowCount f
  ∧ (∀ nc ∈ finalTotal L Md f, (nc : String × Col).2.length = rowCount f)
  ∧ (∀ s : String, smilesOf (inputFrame L s)
      = if containsXlsx s then smilesOf (L.readExcel s) else [s]) := by
  have hsm : (colOf f "SMILES").isSome = true := by
    have := hwf
    simp only [wellFormed, Bool.and_eq_true] at this
    exact this.1
  have hbase : ∀ nc ∈ f, (nc : String × Col).2.length = rowCount f := by
    have h2 : f.all (fun nc => nc.2.length == rowCount f) = true := by
      have := hwf
      simp only [wellFormed, Bool.and_eq_true] at this
      exact this.2
    intro nc h
    have := List.all_eq_true.mp h2 nc h
    simpa using this
  have hN2 : rowCount (dataFrame L f) = rowCount f := by
    simp only [rowCount]
    rw [smilesOf_dataFrame L f hsm]
  have hdata : ∀ nc ∈ dataFrame L f, (nc : String × Col).2.length = rowCount f := by
    intro nc h
    rcases List.mem_append.mp h with h2 | h2
    · exact hbase nc h2
    · simp only [descCols, List.mem_map] at h2
      obtain ⟨dn, _, h3⟩ := h2
      rw [← h3]
      simp [mols, rowCount]
  have hdi : (dataInput L Md f).length = rowCount f := by
    simp [dataInput, rowsOf, hN2]
  have hp1 : (preds1 L Md f).length = rowCount f := by
    simp [preds1, hdi]
  have hp2 : (preds2 L Md f).length = rowCount f := by
    simp [preds2, hdi]
  have hp3 : (preds3 L Md f).length = rowCount f := by
    simp [preds3, hdi]
  have hmw : (mwCalc L f).length = rowCount f := by
    simp [mwCalc, rowCount]
  have hm1 : (mgl1 L Md f).length = rowCount f := by
    simp [mgl1, toMgL, hp1, hmw]
  have hm2 : (mgl2 L Md f).length = rowCount f := by
    simp [mgl2, toMgL, hp2, hmw]
  have hm3 : (mgl3 L Md f).length = rowCount f := by
    simp [mgl3, toMgL, hp3, hmw]
  have hcl : (consensusLogM L Md f).length = rowCount f := by
    simp [consensusLogM, length_zipWith3, hp1, hp2, hp3]
  have hil : (intervalLogM L Md f).length = rowCount f := by
    simp [intervalLogM, length_zipWith3, hp1, hp2, hp3]
  have hcm : (consensusMgL L Md f).length = rowCount f := by
    simp [consensusMgL, length_zipWith3, hm1, hm2, hm3]
  have him : (intervalMgL L Md f).length = rowCount f := by
    simp [intervalMgL, length_zipWith3, hm1, hm2, hm3]
  have s1 := all_len_setCol f nmETRlog (numCol (preds1 L Md f)) (rowCount f) hbase
    (by simp [numCol, hp1])
  have s2 := all_len_setCol _ nmETRmgL (numCol (mgl1 L Md f)) _ s1 (by simp [numCol, hm1])
  have s3 := all_len_setCol _ nmXGBlog (numCol (preds2 L Md f)) _ s2 (by simp [numCol, hp2])
  have s4 := all_len_setCol _ nmXGBmgL (numCol (mgl2 L Md f)) _ s3 (by simp [numCol, hm2])
  have s5 := all_len_setCol _ nmGBlog (numCol (preds3 L Md f)) _ s4 (by simp [numCol, hp3])
  have s6 := all_len_setCol _ nmGBmgL (numCol (mgl3 L Md f)) _ s5 (by simp [numCol, hm3])
  have s7 := all_len_setCol _ nmConsLog (numCol (consensusLogM L Md f)) _ s6
    (by simp [numCol, hcl])
  have s8 := all_len_setCol _ nmIntLog (numCol (intervalLogM L Md f)) _ s7
    (by simp [numCol, hil])
  have s9 := all_len_setCol _ nmConsMgL (numCol (consensusMgL L Md f)) _ s8
    (by simp [numCol, hcm])
  have s10 := all_len_setCol _ nmIntMgL (numCol (intervalMgL L Md f)) _ s9
    (by simp [numCol, him])
  have hraw : ∀ nc ∈ rawFrame L Md f, (nc : String × Col).2.length = rowCount f := by
    simp only [rawFrame]
    exact s10
  have hrnd : ∀ nc ∈ roundedFrame L Md f, (nc : String × Col).2.length = rowCount f := by
    intro nc h
    simp only [roundedFrame, roundAll, List.mem_map] at h
    obtain ⟨nc2, h2, h3⟩ := h
    rw [← h3]
    simp [hraw nc2 h2]
  have hdisp : (displayCol L Md f).length = rowCount f := by
    rw [displayCol_eq]
    simp [hcm, him]
  have hwd : ∀ nc ∈ withDisplay L Md f, (nc : String × Col).2.length = rowCount f := by
    simp only [withDisplay]
    exact all_len_setCol _ nmDisplay (displayCol L Md f) _ hrnd hdisp
  have hfin : ∀ nc ∈ finalTotal L Md f, (nc : String × Col).2.length = rowCount f := by
    simp only [finalTotal]
    exact all_len_setCol _ nmAD (adColumn L Md f) _ hwd (by simp [adColumn, hdi])
  refine ⟨by simp [finalFrameE, hval], smilesOf_finalTotal L Md f, hdata, hdi, hp1, hp2, hp3,
    hfin, ?_⟩
  intro s
  by_cases h : containsXlsx s <;> simp [inputFrame, h, smilesOf, colOf, getStr]

/-- Witness for C7 at a concrete valid one-row input with concrete artifacts. -/
theorem C7_row_count_and_order_preserved_witness :
    finalFrameE demoLibs demoModels demoFrame
      = Except.ok (finalTotal demoLibs demoModels demoFrame)
  ∧ smilesOf (finalTotal demoLibs demoModels demoFrame) = smilesOf demoFrame
  ∧ (∀ nc ∈ dataFrame demoLibs demoFrame,
      (nc : String × Col).2.length = rowCount demoFrame)
  ∧ (dataInput demoLibs demoModels demoFrame).length = rowCount demoFrame
  ∧ (preds1 demoLibs demoModels demoFrame).length = rowCount demoFrame
  ∧ (preds2 demoLibs demoModels demoFrame).length = rowCount demoFrame
  ∧ (preds3 demoLibs demoModels demoFrame).length = rowCount demoFrame
  ∧ (∀ nc ∈ finalTotal demoLibs demoModels demoFrame,
      (nc : String × Col).2.length = rowCount demoFrame)
  ∧ (∀ s : String, smilesOf (inputFrame demoLibs s)
      = if containsXlsx s then smilesOf (demoLibs.readExcel s) else [s]) :=
  C7_row_count_and_order_preserved demoLibs demoModels demoFrame (by decide) (by decide)

end Antioxidant
